import Mathlib

/-!
Verification of the ESP-BSP SDL board abstraction dispatch layer
(`esp_bsp_sdl_common.c` and the per-board implementations under
`src/boards/`), shallowly embedded in Lean.

External collaborators (the vendor BSP driver calls such as
`bsp_display_new`, `bsp_touch_new`, `esp_lcd_touch_read_data`, ...) and the
compile-time BSP constants (`BSP_LCD_H_RES`, `BSP_CAPS_TOUCH`,
`CONFIG_SDL_BSP_TOUCH_ENABLE`, ...) are modelled by an explicit environment
record `BspEnv`: one fixed record describes one deterministic behaviour of
the drivers together with one build configuration.  C out-parameters are
modelled as `Option` cells: the argument `some v` is a valid pointer to a
cell currently holding `v`, `none` is a NULL pointer, and the function
returns the final contents of each cell.
-/

/-- Embeds `esp_err_t` value `ESP_OK`. -/
def ESP_OK : Int := 0

/-- Embeds `esp_err_t` value `ESP_FAIL`. -/
def ESP_FAIL : Int := -1

/-- Embeds `esp_err_t` value `ESP_ERR_INVALID_ARG`. -/
def ESP_ERR_INVALID_ARG : Int := 0x102

/-- Embeds `esp_err_t` value `ESP_ERR_INVALID_STATE`. -/
def ESP_ERR_INVALID_STATE : Int := 0x103

/-- Embeds `esp_err_t` value `ESP_ERR_NOT_SUPPORTED`. -/
def ESP_ERR_NOT_SUPPORTED : Int := 0x106

/-- SDL pixel format constant for RGB565, as defined in every board file. -/
def SDL_PIXELFORMAT_RGB565 : Nat := 0x15151002

/-- SDL pixel format constant for RGB888, as defined in the Tab5 and P4 files. -/
def SDL_PIXELFORMAT_RGB888 : Nat := 0x16161804

/-- An opaque hardware handle (`esp_lcd_panel_handle_t` etc.); `none` is NULL. -/
abbrev Handle := Option Nat

/-- Embeds `esp_bsp_sdl_display_config_t`: the capability descriptor filled by `init`. -/
structure DisplayConfig where
  width : Nat
  height : Nat
  pixel_format : Nat
  max_transfer_sz : Nat
  has_touch : Bool
deriving Repr, DecidableEq

/-- Embeds `esp_bsp_sdl_touch_info_t`: one touch-read result. -/
structure TouchInfo where
  pressed : Bool
  x : Int
  y : Int
deriving Repr, DecidableEq

/-- The file-static handle cells of a board implementation
(`s_panel_handle`, `s_panel_io_handle`, `s_touch_handle`). -/
structure BoardStatics where
  s_panel_handle : Handle
  s_panel_io_handle : Handle
  s_touch_handle : Handle
deriving Repr, DecidableEq

/-- Behaviour of the external vendor/BSP collaborators plus the build-time
BSP constants visible to the board files.  Each field gives the result of
the corresponding external call (and the values it writes through its out
pointers); a fixed record models a deterministic driver environment. -/
structure BspEnv where
  bsp_i2c_init : Int
  bsp_display_brightness_init : Int
  /-- result code and the two handles written through the out pointers -/
  bsp_display_new : Int × Handle × Handle
  /-- result code and the `lcd_handles.panel` / `lcd_handles.io` fields -/
  bsp_display_new_with_handles : Int × Handle × Handle
  esp_lcd_panel_disp_on_off : Handle → Bool → Int
  bsp_display_backlight_on : Int
  bsp_display_backlight_off : Int
  /-- result code and the touch handle written through the out pointer -/
  bsp_touch_new : Int × Handle
  esp_lcd_touch_read_data : Handle → Int
  /-- the returned flag and the written x, y and touch count values -/
  esp_lcd_touch_get_coordinates : Handle → Bool × Nat × Nat × Nat
  bsp_display_get_h_res : Nat
  bsp_display_get_v_res : Nat
  BSP_LCD_H_RES : Nat
  BSP_LCD_V_RES : Nat
  BSP_LCD_SUB_BOARD_3_H_RES : Nat
  BSP_LCD_SUB_BOARD_3_V_RES : Nat
  BSP_CAPS_TOUCH : Bool
  CONFIG_SDL_BSP_TOUCH_ENABLE : Bool
  CONFIG_BSP_LCD_TYPE_1024_600 : Bool
  CONFIG_BSP_LCD_TYPE_1280_800 : Bool
  CONFIG_BSP_LCD_RGB888 : Bool

/-- The result of one run of a board `init` function: the returned
`esp_err_t`, the new file statics, and the final contents of the three
caller-owned out cells. -/
structure InitResult where
  ret : Int
  st : BoardStatics
  config : Option DisplayConfig
  panel : Option Handle
  panel_io : Option Handle

/-- Bytes per pixel of a declared pixel encoding, as the specification
words it: 2 for RGB565, 3 for RGB888 (this definition follows the spec, it
is the yardstick the descriptors are compared against). -/
def spec_bytes_per_pixel (fmt : Nat) : Nat :=
  if fmt = SDL_PIXELFORMAT_RGB565 then 2
  else if fmt = SDL_PIXELFORMAT_RGB888 then 3
  else 0

/-! ## M5 Atom S3 (`esp_bsp_sdl_m5_atom_s3.c`; `BSP_CAPS_TOUCH` is 0 there) -/

/-- Embeds `m5_atom_s3_init`. -/
def m5_atom_s3_init (env : BspEnv) (st : BoardStatics)
    (config : Option DisplayConfig) (panel_handle : Option Handle)
    (panel_io_handle : Option Handle) : InitResult :=
  if config.isNone || panel_handle.isNone || panel_io_handle.isNone then
    ⟨ESP_ERR_INVALID_ARG, st, config, panel_handle, panel_io_handle⟩
  else
    let cfg : DisplayConfig :=
      { width := 128, height := 128
        pixel_format := SDL_PIXELFORMAT_RGB565
        max_transfer_sz := 128 * 128 * 2
        has_touch := false }
    if env.bsp_display_brightness_init ≠ ESP_OK then
      ⟨env.bsp_display_brightness_init, st, some cfg, panel_handle, panel_io_handle⟩
    else
      let st1 := { st with s_panel_handle := env.bsp_display_new.2.1
                           s_panel_io_handle := env.bsp_display_new.2.2 }
      if env.bsp_display_new.1 ≠ ESP_OK then
        ⟨env.bsp_display_new.1, st1, some cfg, panel_handle, panel_io_handle⟩
      else if env.esp_lcd_panel_disp_on_off st1.s_panel_handle true ≠ ESP_OK then
        ⟨env.esp_lcd_panel_disp_on_off st1.s_panel_handle true, st1, some cfg,
          panel_handle, panel_io_handle⟩
      else if env.bsp_display_backlight_on ≠ ESP_OK then
        ⟨env.bsp_display_backlight_on, st1, some cfg, panel_handle, panel_io_handle⟩
      else
        ⟨ESP_OK, st1, some cfg, some st1.s_panel_handle, some st1.s_panel_io_handle⟩

/-- Embeds `m5_atom_s3_backlight_on`. -/
def m5_atom_s3_backlight_on (env : BspEnv) : Int :=
  env.bsp_display_backlight_on

/-- Embeds `m5_atom_s3_backlight_off`. -/
def m5_atom_s3_backlight_off (env : BspEnv) : Int :=
  env.bsp_display_backlight_off

/-- Embeds `m5_atom_s3_display_on_off`. -/
def m5_atom_s3_display_on_off (env : BspEnv) (st : BoardStatics) (enable : Bool) : Int :=
  if st.s_panel_handle.isSome then env.esp_lcd_panel_disp_on_off st.s_panel_handle enable
  else ESP_ERR_INVALID_STATE

/-- Embeds `m5_atom_s3_touch_init` (`BSP_CAPS_TOUCH` is 0 in this file, and even the
touch-capable branch returns not-supported). -/
def m5_atom_s3_touch_init : Int := ESP_ERR_NOT_SUPPORTED

/-- Embeds `m5_atom_s3_touch_read` (`BSP_CAPS_TOUCH` is 0 in this file). -/
def m5_atom_s3_touch_read (ti : Option TouchInfo) : Int × Option TouchInfo :=
  (ESP_ERR_NOT_SUPPORTED, ti)

/-- Embeds `m5_atom_s3_get_name`. -/
def m5_atom_s3_get_name : String := "M5 Atom S3"

/-- Embeds `m5_atom_s3_deinit`. -/
def m5_atom_s3_deinit (st : BoardStatics) : Int × BoardStatics :=
  (ESP_OK, { st with s_panel_handle := none, s_panel_io_handle := none })

/-! ## ESP-Box-3 (`esp_bsp_sdl_esp_box_3.c`, the variant defining the
interface table; that file locally defines `BSP_CAPS_TOUCH` to 0) -/

/-- Embeds `esp_box_3_init`. -/
def esp_box_3_init (env : BspEnv) (st : BoardStatics)
    (config : Option DisplayConfig) (panel_handle : Option Handle)
    (panel_io_handle : Option Handle) : InitResult :=
  if config.isNone || panel_handle.isNone || panel_io_handle.isNone then
    ⟨ESP_ERR_INVALID_ARG, st, config, panel_handle, panel_io_handle⟩
  else
    let cfg : DisplayConfig :=
      { width := 320, height := 240
        pixel_format := SDL_PIXELFORMAT_RGB565
        max_transfer_sz := 320 * 240 * 2
        has_touch := false }
    let st1 := { st with s_panel_handle := env.bsp_display_new.2.1
                         s_panel_io_handle := env.bsp_display_new.2.2 }
    if env.bsp_display_new.1 ≠ ESP_OK then
      ⟨env.bsp_display_new.1, st1, some cfg, panel_handle, panel_io_handle⟩
    else
      ⟨ESP_OK, st1, some cfg, some st1.s_panel_handle, some st1.s_panel_io_handle⟩

/-- Embeds `esp_box_3_backlight_on`. -/
def esp_box_3_backlight_on (env : BspEnv) : Int :=
  env.bsp_display_backlight_on

/-- Embeds `esp_box_3_backlight_off`. -/
def esp_box_3_backlight_off (env : BspEnv) : Int :=
  env.bsp_display_backlight_off

/-- Embeds `esp_box_3_display_on_off`. -/
def esp_box_3_display_on_off (env : BspEnv) (st : BoardStatics) (enable : Bool) : Int :=
  if st.s_panel_handle.isSome then env.esp_lcd_panel_disp_on_off st.s_panel_handle enable
  else ESP_ERR_INVALID_STATE

/-- Embeds `esp_box_3_touch_init` (`BSP_CAPS_TOUCH` is 0 in this file). -/
def esp_box_3_touch_init : Int := ESP_ERR_NOT_SUPPORTED

/-- Embeds `esp_box_3_touch_read` (`BSP_CAPS_TOUCH` is 0 in this file). -/
def esp_box_3_touch_read (ti : Option TouchInfo) : Int × Option TouchInfo :=
  (ESP_ERR_NOT_SUPPORTED, ti)

/-- Embeds `esp_box_3_get_name`. -/
def esp_box_3_get_name : String := "ESP-Box-3"

/-- Embeds `esp_box_3_deinit`. -/
def esp_box_3_deinit (st : BoardStatics) : Int × BoardStatics :=
  (ESP_OK, { st with s_panel_handle := none, s_panel_io_handle := none })

/-! ## ESP-Box-3 (`src/src/boards/esp_bsp_sdl_esp_box_3.c`, the variant with
the `esp_bsp_sdl_board_*` entry points; there `BSP_CAPS_TOUCH` comes from
the BSP headers, modelled by `env.BSP_CAPS_TOUCH`) -/

namespace EspBox3Board

/-- Embeds `esp_bsp_sdl_board_touch_read` of the ESP-Box-3 file: when the BSP
reports touch capability it fills an empty sample and returns `ESP_OK`
without consulting any touch handle (the handle is never stored). -/
def esp_bsp_sdl_board_touch_read (env : BspEnv) (ti : Option TouchInfo) :
    Int × Option TouchInfo :=
  if env.BSP_CAPS_TOUCH then
    if ti.isNone then (ESP_ERR_INVALID_ARG, ti)
    else (ESP_OK, some ⟨false, 0, 0⟩)
  else (ESP_ERR_NOT_SUPPORTED, ti)

end EspBox3Board

/-! ## M5Stack CoreS3 (`esp_bsp_sdl_m5stack_core_s3.c`) -/

namespace CoreS3

/-- Embeds `esp_bsp_sdl_board_init` of the CoreS3 file. -/
def esp_bsp_sdl_board_init (env : BspEnv) (st : BoardStatics)
    (config : Option DisplayConfig) (panel_handle : Option Handle)
    (panel_io_handle : Option Handle) : InitResult :=
  if config.isNone || panel_handle.isNone || panel_io_handle.isNone then
    ⟨ESP_ERR_INVALID_ARG, st, config, panel_handle, panel_io_handle⟩
  else if env.bsp_i2c_init ≠ ESP_OK then
    ⟨env.bsp_i2c_init, st, config, panel_handle, panel_io_handle⟩
  else if env.bsp_display_brightness_init ≠ ESP_OK then
    ⟨env.bsp_display_brightness_init, st, config, panel_handle, panel_io_handle⟩
  else
    let cfg : DisplayConfig :=
      { width := env.BSP_LCD_H_RES, height := env.BSP_LCD_V_RES
        pixel_format := SDL_PIXELFORMAT_RGB565
        max_transfer_sz := env.BSP_LCD_H_RES * env.BSP_LCD_V_RES * 2
        has_touch := env.BSP_CAPS_TOUCH }
    let st1 := { st with s_panel_handle := env.bsp_display_new.2.1
                         s_panel_io_handle := env.bsp_display_new.2.2 }
    if env.bsp_display_new.1 ≠ ESP_OK then
      ⟨env.bsp_display_new.1, st1, some cfg, panel_handle, panel_io_handle⟩
    else if env.esp_lcd_panel_disp_on_off st1.s_panel_handle true ≠ ESP_OK then
      ⟨env.esp_lcd_panel_disp_on_off st1.s_panel_handle true, st1, some cfg,
        panel_handle, panel_io_handle⟩
    else
      -- step 6: the backlight result is logged but deliberately not checked
      ⟨ESP_OK, st1, some cfg, some st1.s_panel_handle, some st1.s_panel_io_handle⟩

/-- Embeds `esp_bsp_sdl_board_backlight_on` of the CoreS3 file. -/
def esp_bsp_sdl_board_backlight_on (env : BspEnv) : Int :=
  env.bsp_display_backlight_on

/-- Embeds `esp_bsp_sdl_board_backlight_off` of the CoreS3 file (declared as
returning `int` rather than `esp_err_t` in the source). -/
def esp_bsp_sdl_board_backlight_off (env : BspEnv) : Int :=
  env.bsp_display_backlight_off

/-- Embeds `esp_bsp_sdl_board_display_on_off` of the CoreS3 file. -/
def esp_bsp_sdl_board_display_on_off (env : BspEnv) (st : BoardStatics)
    (enable : Bool) : Int :=
  if st.s_panel_handle.isSome then env.esp_lcd_panel_disp_on_off st.s_panel_handle enable
  else ESP_ERR_INVALID_STATE

/-- Embeds `esp_bsp_sdl_board_touch_init` of the CoreS3 file. -/
def esp_bsp_sdl_board_touch_init (env : BspEnv) (st : BoardStatics) :
    Int × BoardStatics :=
  if env.BSP_CAPS_TOUCH then
    if env.bsp_i2c_init ≠ ESP_OK && env.bsp_i2c_init ≠ ESP_ERR_INVALID_STATE then
      (env.bsp_i2c_init, st)
    else
      let st1 := { st with s_touch_handle := env.bsp_touch_new.2 }
      if env.bsp_touch_new.1 ≠ ESP_OK then (env.bsp_touch_new.1, st1)
      else (ESP_OK, st1)
  else (ESP_ERR_NOT_SUPPORTED, st)

/-- Embeds `esp_bsp_sdl_board_touch_read` of the CoreS3 file.  Note the combined
NULL check: a missing touch handle yields `ESP_ERR_INVALID_ARG`, and the
`esp_err_t` of `esp_lcd_touch_read_data` is coerced to a C `bool`. -/
def esp_bsp_sdl_board_touch_read (env : BspEnv) (st : BoardStatics)
    (ti : Option TouchInfo) : Int × Option TouchInfo :=
  if env.BSP_CAPS_TOUCH then
    if ti.isNone || st.s_touch_handle.isNone then (ESP_ERR_INVALID_ARG, ti)
    else
      let pressed := env.esp_lcd_touch_read_data st.s_touch_handle ≠ 0
      if pressed then
        let c := env.esp_lcd_touch_get_coordinates st.s_touch_handle
        if c.2.2.2 > 0 then (ESP_OK, some ⟨true, (c.2.1 : Int), (c.2.2.1 : Int)⟩)
        else (ESP_OK, some ⟨false, 0, 0⟩)
      else (ESP_OK, some ⟨false, 0, 0⟩)
  else (ESP_ERR_NOT_SUPPORTED, ti)

/-- Embeds `esp_bsp_sdl_board_get_name` of the CoreS3 file. -/
def esp_bsp_sdl_board_get_name : String := "M5Stack CoreS3"

/-- Embeds `esp_bsp_sdl_board_deinit` of the CoreS3 file (the touch handle is not
cleared there). -/
def esp_bsp_sdl_board_deinit (st : BoardStatics) : Int × BoardStatics :=
  (ESP_OK, { st with s_panel_handle := none, s_panel_io_handle := none })

end CoreS3

/-! ## M5Stack Tab5 (`esp_bsp_sdl_m5stack_tab5.c`) -/

/-- Embeds `m5stack_tab5_init`. -/
def m5stack_tab5_init (env : BspEnv) (st : BoardStatics)
    (config : Option DisplayConfig) (panel_handle : Option Handle)
    (panel_io_handle : Option Handle) : InitResult :=
  if config.isNone || panel_handle.isNone || panel_io_handle.isNone then
    ⟨ESP_ERR_INVALID_ARG, st, config, panel_handle, panel_io_handle⟩
  else
    let cfg : DisplayConfig :=
      { width := 1280, height := 720
        pixel_format := SDL_PIXELFORMAT_RGB565
        max_transfer_sz := 1280 * 720 * 2
        has_touch := if env.CONFIG_SDL_BSP_TOUCH_ENABLE then env.BSP_CAPS_TOUCH else false }
    if env.bsp_display_new_with_handles.1 ≠ ESP_OK then
      ⟨env.bsp_display_new_with_handles.1, st, some cfg, panel_handle, panel_io_handle⟩
    else
      let st1 := { st with s_panel_handle := env.bsp_display_new_with_handles.2.1
                           s_panel_io_handle := env.bsp_display_new_with_handles.2.2 }
      -- step 4: backlight results are logged but initialization never fails on them
      ⟨ESP_OK, st1, some cfg, some st1.s_panel_handle, some st1.s_panel_io_handle⟩

/-- Embeds `m5stack_tab5_backlight_on`. -/
def m5stack_tab5_backlight_on (env : BspEnv) : Int :=
  env.bsp_display_backlight_on

/-- Embeds `m5stack_tab5_backlight_off`. -/
def m5stack_tab5_backlight_off (env : BspEnv) : Int :=
  env.bsp_display_backlight_off

/-- Embeds `m5stack_tab5_display_on_off` (returns `ESP_OK` when no panel handle is
stored, since MIPI-DSI panels are treated as always on). -/
def m5stack_tab5_display_on_off (env : BspEnv) (st : BoardStatics) (enable : Bool) : Int :=
  if st.s_panel_handle.isSome then env.esp_lcd_panel_disp_on_off st.s_panel_handle enable
  else ESP_OK

/-- Embeds `m5stack_tab5_touch_init`. -/
def m5stack_tab5_touch_init (env : BspEnv) (st : BoardStatics) : Int × BoardStatics :=
  if env.CONFIG_SDL_BSP_TOUCH_ENABLE then
    let st1 := { st with s_touch_handle := env.bsp_touch_new.2 }
    if env.bsp_touch_new.1 ≠ ESP_OK then (env.bsp_touch_new.1, st1)
    else (ESP_OK, st1)
  else (ESP_ERR_NOT_SUPPORTED, st)

/-- Embeds `m5stack_tab5_touch_read`: reports `ESP_ERR_INVALID_STATE` (with an
empty sample) when touch was never initialized, and rotates the raw
portrait 720x1280 coordinates into the landscape 1280x720 orientation. -/
def m5stack_tab5_touch_read (env : BspEnv) (st : BoardStatics)
    (ti : Option TouchInfo) : Int × Option TouchInfo :=
  if env.CONFIG_SDL_BSP_TOUCH_ENABLE then
    if ti.isNone then (ESP_ERR_INVALID_ARG, ti)
    else if st.s_touch_handle.isNone then
      (ESP_ERR_INVALID_STATE, some ⟨false, 0, 0⟩)
    else if env.esp_lcd_touch_read_data st.s_touch_handle = ESP_OK then
      let c := env.esp_lcd_touch_get_coordinates st.s_touch_handle
      if c.1 && c.2.2.2 > 0 then
        (ESP_OK, some ⟨true, ((c.2.2.1 * 1280) / 720 : Nat),
          (720 : Int) - ((c.2.1 * 720) / 1280 : Nat)⟩)
      else (ESP_OK, some ⟨false, 0, 0⟩)
    else (ESP_OK, some ⟨false, 0, 0⟩)
  else (ESP_ERR_NOT_SUPPORTED, ti)

/-- Embeds `m5stack_tab5_get_name`. -/
def m5stack_tab5_get_name : String := "M5Stack Tab5"

/-- Embeds `m5stack_tab5_deinit`. -/
def m5stack_tab5_deinit (env : BspEnv) (st : BoardStatics) : Int × BoardStatics :=
  (ESP_OK,
    { st with
      s_touch_handle := if env.CONFIG_SDL_BSP_TOUCH_ENABLE then none else st.s_touch_handle
      s_panel_handle := none
      s_panel_io_handle := none })

/-! ## ESP32-P4 Function EV Board (`esp_bsp_sdl_esp32_p4_function_ev.c`) -/

/-- Embeds `esp32_p4_function_ev_init`. -/
def esp32_p4_function_ev_init (env : BspEnv) (st : BoardStatics)
    (config : Option DisplayConfig) (panel_handle : Option Handle)
    (panel_io_handle : Option Handle) : InitResult :=
  if config.isNone || panel_handle.isNone || panel_io_handle.isNone then
    ⟨ESP_ERR_INVALID_ARG, st, config, panel_handle, panel_io_handle⟩
  else
    let w : Nat := if env.CONFIG_BSP_LCD_TYPE_1024_600 then 1024
      else if env.CONFIG_BSP_LCD_TYPE_1280_800 then 1280 else 1280
    let h : Nat := if env.CONFIG_BSP_LCD_TYPE_1024_600 then 600
      else if env.CONFIG_BSP_LCD_TYPE_1280_800 then 800 else 800
    let cfg : DisplayConfig :=
      { width := w, height := h
        pixel_format :=
          if env.CONFIG_BSP_LCD_RGB888 then SDL_PIXELFORMAT_RGB888
          else SDL_PIXELFORMAT_RGB565
        max_transfer_sz := if env.CONFIG_BSP_LCD_RGB888 then w * h * 3 else w * h * 2
        has_touch := if env.CONFIG_SDL_BSP_TOUCH_ENABLE then env.BSP_CAPS_TOUCH else false }
    let st1 := { st with s_panel_handle := env.bsp_display_new.2.1
                         s_panel_io_handle := env.bsp_display_new.2.2 }
    if env.bsp_display_new.1 ≠ ESP_OK then
      ⟨env.bsp_display_new.1, st1, some cfg, panel_handle, panel_io_handle⟩
    else
      -- step 4: backlight results are logged but initialization never fails on them
      ⟨ESP_OK, st1, some cfg, some st1.s_panel_handle, some st1.s_panel_io_handle⟩

/-- Embeds `esp32_p4_function_ev_backlight_on`. -/
def esp32_p4_function_ev_backlight_on (env : BspEnv) : Int :=
  env.bsp_display_backlight_on

/-- Embeds `esp32_p4_function_ev_backlight_off`. -/
def esp32_p4_function_ev_backlight_off (env : BspEnv) : Int :=
  env.bsp_display_backlight_off

/-- Embeds `esp32_p4_function_ev_display_on_off` (DPI panels are always on). -/
def esp32_p4_function_ev_display_on_off (_enable : Bool) : Int := ESP_OK

/-- Embeds `esp32_p4_function_ev_touch_init`. -/
def esp32_p4_function_ev_touch_init (env : BspEnv) (st : BoardStatics) :
    Int × BoardStatics :=
  if env.BSP_CAPS_TOUCH then
    if env.CONFIG_SDL_BSP_TOUCH_ENABLE then
      let st1 := { st with s_touch_handle := env.bsp_touch_new.2 }
      if env.bsp_touch_new.1 ≠ ESP_OK then (env.bsp_touch_new.1, st1)
      else (ESP_OK, st1)
    else (ESP_ERR_NOT_SUPPORTED, st)
  else (ESP_ERR_NOT_SUPPORTED, st)

/-- Embeds `esp32_p4_function_ev_touch_read`: reports `ESP_ERR_INVALID_STATE`
(with an empty sample) when touch was never initialized. -/
def esp32_p4_function_ev_touch_read (env : BspEnv) (st : BoardStatics)
    (ti : Option TouchInfo) : Int × Option TouchInfo :=
  if env.BSP_CAPS_TOUCH then
    if env.CONFIG_SDL_BSP_TOUCH_ENABLE then
      if ti.isNone then (ESP_ERR_INVALID_ARG, ti)
      else if st.s_touch_handle.isNone then
        (ESP_ERR_INVALID_STATE, some ⟨false, 0, 0⟩)
      else if env.esp_lcd_touch_read_data st.s_touch_handle = ESP_OK then
        let c := env.esp_lcd_touch_get_coordinates st.s_touch_handle
        if c.1 && c.2.2.2 > 0 then (ESP_OK, some ⟨true, (c.2.1 : Int), (c.2.2.1 : Int)⟩)
        else (ESP_OK, some ⟨false, 0, 0⟩)
      else (ESP_OK, some ⟨false, 0, 0⟩)
    else (ESP_ERR_NOT_SUPPORTED, ti.map fun _ => ⟨false, 0, 0⟩)
  else (ESP_ERR_NOT_SUPPORTED, ti)

/-- Embeds `esp32_p4_function_ev_get_name`. -/
def esp32_p4_function_ev_get_name : String := "ESP32-P4 Function EV Board"

/-- Embeds `esp32_p4_function_ev_deinit`. -/
def esp32_p4_function_ev_deinit (st : BoardStatics) : Int × BoardStatics :=
  (ESP_OK, { st with s_touch_handle := none, s_panel_handle := none,
                     s_panel_io_handle := none })

/-! ## ESP32-S3-LCD-EV-Board (`esp_bsp_sdl_esp32_s3_lcd_ev_board.c`) -/

/-- Embeds `esp32_s3_lcd_ev_board_init`. -/
def esp32_s3_lcd_ev_board_init (env : BspEnv) (st : BoardStatics)
    (config : Option DisplayConfig) (panel_handle : Option Handle)
    (panel_io_handle : Option Handle) : InitResult :=
  if config.isNone || panel_handle.isNone || panel_io_handle.isNone then
    ⟨ESP_ERR_INVALID_ARG, st, config, panel_handle, panel_io_handle⟩
  else
    let h0 := env.bsp_display_get_h_res
    let v0 := env.bsp_display_get_v_res
    let hres := if h0 = 0 || v0 = 0 then env.BSP_LCD_SUB_BOARD_3_H_RES else h0
    let vres := if h0 = 0 || v0 = 0 then env.BSP_LCD_SUB_BOARD_3_V_RES else v0
    let cfg : DisplayConfig :=
      { width := hres, height := vres
        pixel_format := SDL_PIXELFORMAT_RGB565
        max_transfer_sz := hres * vres * 2
        has_touch := if env.CONFIG_SDL_BSP_TOUCH_ENABLE then env.BSP_CAPS_TOUCH else false }
    let st1 := { st with s_panel_handle := env.bsp_display_new.2.1
                         s_panel_io_handle := env.bsp_display_new.2.2 }
    if env.bsp_display_new.1 ≠ ESP_OK then
      ⟨env.bsp_display_new.1, st1, some cfg, panel_handle, panel_io_handle⟩
    else if env.esp_lcd_panel_disp_on_off st1.s_panel_handle true ≠ ESP_OK then
      ⟨env.esp_lcd_panel_disp_on_off st1.s_panel_handle true, st1, some cfg,
        panel_handle, panel_io_handle⟩
    else
      ⟨ESP_OK, st1, some cfg, some st1.s_panel_handle, some st1.s_panel_io_handle⟩

/-- Embeds `esp32_s3_lcd_ev_board_backlight_on` (backlight is hardware-fixed on). -/
def esp32_s3_lcd_ev_board_backlight_on : Int := ESP_ERR_NOT_SUPPORTED

/-- Embeds `esp32_s3_lcd_ev_board_backlight_off` (backlight is hardware-fixed on). -/
def esp32_s3_lcd_ev_board_backlight_off : Int := ESP_ERR_NOT_SUPPORTED

/-- Embeds `esp32_s3_lcd_ev_board_display_on_off`. -/
def esp32_s3_lcd_ev_board_display_on_off (env : BspEnv) (st : BoardStatics)
    (enable : Bool) : Int :=
  if st.s_panel_handle.isSome then env.esp_lcd_panel_disp_on_off st.s_panel_handle enable
  else ESP_ERR_INVALID_STATE

/-- Embeds `esp32_s3_lcd_ev_board_touch_init`. -/
def esp32_s3_lcd_ev_board_touch_init (env : BspEnv) (st : BoardStatics) :
    Int × BoardStatics :=
  if env.CONFIG_SDL_BSP_TOUCH_ENABLE then
    if env.BSP_CAPS_TOUCH then
      let st1 := { st with s_touch_handle := env.bsp_touch_new.2 }
      if env.bsp_touch_new.1 ≠ ESP_OK then (env.bsp_touch_new.1, st1)
      else (ESP_OK, st1)
    else (ESP_ERR_NOT_SUPPORTED, st)
  else (ESP_ERR_NOT_SUPPORTED, st)

/-- Embeds `esp32_s3_lcd_ev_board_touch_read`.  Note the combined NULL check: a
missing touch handle yields `ESP_ERR_INVALID_ARG`. -/
def esp32_s3_lcd_ev_board_touch_read (env : BspEnv) (st : BoardStatics)
    (ti : Option TouchInfo) : Int × Option TouchInfo :=
  if env.CONFIG_SDL_BSP_TOUCH_ENABLE then
    if env.BSP_CAPS_TOUCH then
      if ti.isNone || st.s_touch_handle.isNone then (ESP_ERR_INVALID_ARG, ti)
      else
        let c := env.esp_lcd_touch_get_coordinates st.s_touch_handle
        let touched := c.1 && c.2.2.2 > 0
        (ESP_OK, some ⟨touched, if touched then (c.2.1 : Int) else 0,
          if touched then (c.2.2.1 : Int) else 0⟩)
    else (ESP_ERR_NOT_SUPPORTED, ti)
  else (ESP_ERR_NOT_SUPPORTED, ti)

/-- Embeds `esp32_s3_lcd_ev_board_get_name`. -/
def esp32_s3_lcd_ev_board_get_name : String := "ESP32-S3-LCD-EV-Board"

/-- Embeds `esp32_s3_lcd_ev_board_deinit`. -/
def esp32_s3_lcd_ev_board_deinit (env : BspEnv) (st : BoardStatics) :
    Int × BoardStatics :=
  (ESP_OK,
    { st with
      s_panel_handle := none
      s_panel_io_handle := none
      s_touch_handle := if env.CONFIG_SDL_BSP_TOUCH_ENABLE then none
        else st.s_touch_handle })

/-! ## Board interface tables (`esp_bsp_sdl_board_interface_t`) and the
dispatcher (`esp_bsp_sdl_common.c`).

An interface value packages the board entry points as seen by the
dispatcher, with the board file statics and the driver environment fixed
at the moment the table is consulted. -/

/-- Embeds `esp_bsp_sdl_board_interface_t`: the uniform operation table. -/
structure BoardInterface where
  init : Option DisplayConfig → Option Handle → Option Handle →
    Int × Option DisplayConfig × Option Handle × Option Handle
  backlight_on : Int
  backlight_off : Int
  display_on_off : Bool → Int
  touch_init : Int
  touch_read : Option TouchInfo → Int × Option TouchInfo
  get_name : String
  deinit : Int
  board_name : String

/-- Embeds `esp_bsp_sdl_m5_atom_s3_interface`. -/
def esp_bsp_sdl_m5_atom_s3_interface (env : BspEnv) (st : BoardStatics) :
    BoardInterface where
  init := fun c ph pioh =>
    let r := m5_atom_s3_init env st c ph pioh
    (r.ret, r.config, r.panel, r.panel_io)
  backlight_on := m5_atom_s3_backlight_on env
  backlight_off := m5_atom_s3_backlight_off env
  display_on_off := fun e => m5_atom_s3_display_on_off env st e
  touch_init := m5_atom_s3_touch_init
  touch_read := fun ti => m5_atom_s3_touch_read ti
  get_name := m5_atom_s3_get_name
  deinit := (m5_atom_s3_deinit st).1
  board_name := "M5 Atom S3"

/-- Embeds `esp_bsp_sdl_esp_box_3_interface`. -/
def esp_bsp_sdl_esp_box_3_interface (env : BspEnv) (st : BoardStatics) :
    BoardInterface where
  init := fun c ph pioh =>
    let r := esp_box_3_init env st c ph pioh
    (r.ret, r.config, r.panel, r.panel_io)
  backlight_on := esp_box_3_backlight_on env
  backlight_off := esp_box_3_backlight_off env
  display_on_off := fun e => esp_box_3_display_on_off env st e
  touch_init := esp_box_3_touch_init
  touch_read := fun ti => esp_box_3_touch_read ti
  get_name := esp_box_3_get_name
  deinit := (esp_box_3_deinit st).1
  board_name := "ESP32-S3-BOX-3"

/-- Modelled from the spec: the CoreS3 interface table
`esp_bsp_sdl_m5stack_core_s3_interface` itself is declared in
`esp_bsp_sdl_common.c` but its definition is not among the sources; the
CoreS3 entry points are, so the table is assembled here from them in the
same shape as every other board table, with the display name its
`get_name` accessor returns. -/
def esp_bsp_sdl_m5stack_core_s3_interface (env : BspEnv) (st : BoardStatics) :
    BoardInterface where
  init := fun c ph pioh =>
    let r := CoreS3.esp_bsp_sdl_board_init env st c ph pioh
    (r.ret, r.config, r.panel, r.panel_io)
  backlight_on := CoreS3.esp_bsp_sdl_board_backlight_on env
  backlight_off := CoreS3.esp_bsp_sdl_board_backlight_off env
  display_on_off := fun e => CoreS3.esp_bsp_sdl_board_display_on_off env st e
  touch_init := (CoreS3.esp_bsp_sdl_board_touch_init env st).1
  touch_read := fun ti => CoreS3.esp_bsp_sdl_board_touch_read env st ti
  get_name := CoreS3.esp_bsp_sdl_board_get_name
  deinit := (CoreS3.esp_bsp_sdl_board_deinit st).1
  board_name := "M5Stack CoreS3"

/-- Embeds `esp_bsp_sdl_esp32_p4_function_ev_interface`. -/
def esp_bsp_sdl_esp32_p4_function_ev_interface (env : BspEnv) (st : BoardStatics) :
    BoardInterface where
  init := fun c ph pioh =>
    let r := esp32_p4_function_ev_init env st c ph pioh
    (r.ret, r.config, r.panel, r.panel_io)
  backlight_on := esp32_p4_function_ev_backlight_on env
  backlight_off := esp32_p4_function_ev_backlight_off env
  display_on_off := fun e => esp32_p4_function_ev_display_on_off e
  touch_init := (esp32_p4_function_ev_touch_init env st).1
  touch_read := fun ti => esp32_p4_function_ev_touch_read env st ti
  get_name := esp32_p4_function_ev_get_name
  deinit := (esp32_p4_function_ev_deinit st).1
  board_name := "ESP32-P4 Function EV Board"

/-- Embeds `esp_bsp_sdl_esp32_s3_lcd_ev_board_interface`. -/
def esp_bsp_sdl_esp32_s3_lcd_ev_board_interface (env : BspEnv) (st : BoardStatics) :
    BoardInterface where
  init := fun c ph pioh =>
    let r := esp32_s3_lcd_ev_board_init env st c ph pioh
    (r.ret, r.config, r.panel, r.panel_io)
  backlight_on := esp32_s3_lcd_ev_board_backlight_on
  backlight_off := esp32_s3_lcd_ev_board_backlight_off
  display_on_off := fun e => esp32_s3_lcd_ev_board_display_on_off env st e
  touch_init := (esp32_s3_lcd_ev_board_touch_init env st).1
  touch_read := fun ti => esp32_s3_lcd_ev_board_touch_read env st ti
  get_name := esp32_s3_lcd_ev_board_get_name
  deinit := (esp32_s3_lcd_ev_board_deinit env st).1
  board_name := "ESP32-S3-LCD-EV-Board"

/-- Embeds `esp_bsp_sdl_m5stack_tab5_interface`. -/
def esp_bsp_sdl_m5stack_tab5_interface (env : BspEnv) (st : BoardStatics) :
    BoardInterface where
  init := fun c ph pioh =>
    let r := m5stack_tab5_init env st c ph pioh
    (r.ret, r.config, r.panel, r.panel_io)
  backlight_on := m5stack_tab5_backlight_on env
  backlight_off := m5stack_tab5_backlight_off env
  display_on_off := fun e => m5stack_tab5_display_on_off env st e
  touch_init := (m5stack_tab5_touch_init env st).1
  touch_read := fun ti => m5stack_tab5_touch_read env st ti
  get_name := m5stack_tab5_get_name
  deinit := (m5stack_tab5_deinit env st).1
  board_name := "M5Stack Tab5"

/-- The disjoint build-time board markers tested by `detect_board`. -/
structure SdkConfig where
  CONFIG_SDL_BSP_M5_ATOM_S3 : Bool
  CONFIG_SDL_BSP_ESP_BOX_3 : Bool
  CONFIG_SDL_BSP_M5STACK_CORE_S3 : Bool
  CONFIG_SDL_BSP_ESP32_P4_FUNCTION_EV : Bool
  CONFIG_SDL_BSP_ESP32_S3_LCD_EV_BOARD : Bool
  CONFIG_SDL_BSP_M5STACK_TAB5 : Bool
deriving Repr, DecidableEq

/-- Embeds `detect_board` of `esp_bsp_sdl_common.c`: the `#ifdef`/`#elif` chain
over the board markers, in source order. -/
def detect_board (k : SdkConfig) (env : BspEnv) (st : BoardStatics) :
    Option BoardInterface :=
  if k.CONFIG_SDL_BSP_M5_ATOM_S3 then
    some (esp_bsp_sdl_m5_atom_s3_interface env st)
  else if k.CONFIG_SDL_BSP_ESP_BOX_3 then
    some (esp_bsp_sdl_esp_box_3_interface env st)
  else if k.CONFIG_SDL_BSP_M5STACK_CORE_S3 then
    some (esp_bsp_sdl_m5stack_core_s3_interface env st)
  else if k.CONFIG_SDL_BSP_ESP32_P4_FUNCTION_EV then
    some (esp_bsp_sdl_esp32_p4_function_ev_interface env st)
  else if k.CONFIG_SDL_BSP_ESP32_S3_LCD_EV_BOARD then
    some (esp_bsp_sdl_esp32_s3_lcd_ev_board_interface env st)
  else if k.CONFIG_SDL_BSP_M5STACK_TAB5 then
    some (esp_bsp_sdl_m5stack_tab5_interface env st)
  else none

/-- The dispatcher state: the single mutable cell `s_current_board`. -/
structure DispatcherState where
  s_current_board : Option BoardInterface

/-- The result of one run of `esp_bsp_sdl_init`. -/
structure DispatchInitResult where
  ret : Int
  state : DispatcherState
  config : Option DisplayConfig
  panel : Option Handle
  panel_io : Option Handle

/-- Embeds `esp_bsp_sdl_init`: assigns `s_current_board = detect_board()` first,
fails with `ESP_ERR_NOT_SUPPORTED` when no marker is set, and otherwise
returns whatever the board `init` returns (the stored board is not
cleared when that `init` fails). -/
def esp_bsp_sdl_init (k : SdkConfig) (env : BspEnv) (st : BoardStatics)
    (config : Option DisplayConfig) (panel_handle : Option Handle)
    (panel_io_handle : Option Handle) : DispatchInitResult :=
  match detect_board k env st with
  | none => ⟨ESP_ERR_NOT_SUPPORTED, ⟨none⟩, config, panel_handle, panel_io_handle⟩
  | some b =>
    let r := b.init config panel_handle panel_io_handle
    ⟨r.1, ⟨some b⟩, r.2.1, r.2.2.1, r.2.2.2⟩

/-- Embeds `esp_bsp_sdl_backlight_on`. -/
def esp_bsp_sdl_backlight_on (s : DispatcherState) : Int :=
  match s.s_current_board with
  | none => ESP_ERR_INVALID_STATE
  | some b => b.backlight_on

/-- Embeds `esp_bsp_sdl_backlight_off`. -/
def esp_bsp_sdl_backlight_off (s : DispatcherState) : Int :=
  match s.s_current_board with
  | none => ESP_ERR_INVALID_STATE
  | some b => b.backlight_off

/-- Embeds `esp_bsp_sdl_display_on_off`. -/
def esp_bsp_sdl_display_on_off (s : DispatcherState) (enable : Bool) : Int :=
  match s.s_current_board with
  | none => ESP_ERR_INVALID_STATE
  | some b => b.display_on_off enable

/-- Embeds `esp_bsp_sdl_touch_init`. -/
def esp_bsp_sdl_touch_init (s : DispatcherState) : Int :=
  match s.s_current_board with
  | none => ESP_ERR_INVALID_STATE
  | some b => b.touch_init

/-- Embeds `esp_bsp_sdl_touch_read` (the NULL argument check precedes the state
check, as in the source). -/
def esp_bsp_sdl_touch_read (s : DispatcherState) (ti : Option TouchInfo) :
    Int × Option TouchInfo :=
  match ti with
  | none => (ESP_ERR_INVALID_ARG, none)
  | some v =>
    match s.s_current_board with
    | none => (ESP_ERR_INVALID_STATE, some v)
    | some b => b.touch_read (some v)

/-- Embeds `esp_bsp_sdl_get_board_name`. -/
def esp_bsp_sdl_get_board_name (s : DispatcherState) : String :=
  match s.s_current_board with
  | none => "Unknown"
  | some b => b.board_name

/-- Embeds `esp_bsp_sdl_deinit`: forwards to the stored board when there is one,
always clears `s_current_board`, and returns the board result unchanged;
with no stored board it returns `ESP_OK` immediately. -/
def esp_bsp_sdl_deinit (s : DispatcherState) : Int × DispatcherState :=
  match s.s_current_board with
  | none => (ESP_OK, s)
  | some b => (b.deinit, ⟨none⟩)

/-- Embeds `b` is one of the six board interface tables the dispatcher can select
(under some driver environment and statics snapshot). -/
def isRepoBoard (b : BoardInterface) : Prop :=
  (∃ env st, b = esp_bsp_sdl_m5_atom_s3_interface env st) ∨
  (∃ env st, b = esp_bsp_sdl_esp_box_3_interface env st) ∨
  (∃ env st, b = esp_bsp_sdl_m5stack_core_s3_interface env st) ∨
  (∃ env st, b = esp_bsp_sdl_esp32_p4_function_ev_interface env st) ∨
  (∃ env st, b = esp_bsp_sdl_esp32_s3_lcd_ev_board_interface env st) ∨
  (∃ env st, b = esp_bsp_sdl_m5stack_tab5_interface env st)

/-! ## Concrete sample values used by the witnesses and counterexamples -/

/-- A driver environment in which every bring-up call succeeds, the board
reports a 320x240 panel, touch hardware is present and enabled, and no
finger is on the screen. -/
def envOk : BspEnv where
  bsp_i2c_init := ESP_OK
  bsp_display_brightness_init := ESP_OK
  bsp_display_new := (ESP_OK, some 1, some 2)
  bsp_display_new_with_handles := (ESP_OK, some 1, some 2)
  esp_lcd_panel_disp_on_off := fun _ _ => ESP_OK
  bsp_display_backlight_on := ESP_OK
  bsp_display_backlight_off := ESP_OK
  bsp_touch_new := (ESP_OK, some 3)
  esp_lcd_touch_read_data := fun _ => ESP_OK
  esp_lcd_touch_get_coordinates := fun _ => (false, 0, 0, 0)
  bsp_display_get_h_res := 800
  bsp_display_get_v_res := 480
  BSP_LCD_H_RES := 320
  BSP_LCD_V_RES := 240
  BSP_LCD_SUB_BOARD_3_H_RES := 800
  BSP_LCD_SUB_BOARD_3_V_RES := 480
  BSP_CAPS_TOUCH := true
  CONFIG_SDL_BSP_TOUCH_ENABLE := true
  CONFIG_BSP_LCD_TYPE_1024_600 := false
  CONFIG_BSP_LCD_TYPE_1280_800 := false
  CONFIG_BSP_LCD_RGB888 := false

/-- Like `envOk` but `bsp_display_brightness_init` fails. -/
def envBrightnessFail : BspEnv :=
  { envOk with bsp_display_brightness_init := ESP_FAIL }

/-- Board statics at program start: all three handle cells NULL. -/
def st0 : BoardStatics := ⟨none, none, none⟩

/-- An arbitrary initial (uninitialized) descriptor cell content. -/
def cfg0 : DisplayConfig := ⟨0, 0, 0, 0, false⟩

/-- An arbitrary initial touch-sample cell content recording a previous
touch position. -/
def tiPrev : TouchInfo := ⟨true, 55, 66⟩

/-- The build configuration selecting the M5 Atom S3 board. -/
def kAtom : SdkConfig := ⟨true, false, false, false, false, false⟩

/-- The bring-up calls a board `init` checks all succeed (the deterministic
environment makes every board initialization succeed). -/
def EnvBringupOk (env : BspEnv) : Prop :=
  env.bsp_i2c_init = ESP_OK ∧
  env.bsp_display_brightness_init = ESP_OK ∧
  env.bsp_display_new.1 = ESP_OK ∧
  env.bsp_display_new_with_handles.1 = ESP_OK ∧
  (∀ h e, env.esp_lcd_panel_disp_on_off h e = ESP_OK) ∧
  env.bsp_display_backlight_on = ESP_OK

theorem envOk_bringup : EnvBringupOk envOk :=
  ⟨rfl, rfl, rfl, rfl, fun _ _ => rfl, rfl⟩

/-! ## C10 -/

/-- C10: calling `esp_bsp_sdl_deinit` while the dispatcher is
Uninitialized returns `ESP_OK` without any board stored (so no board
implementation can be consulted), leaves the state Uninitialized, is
idempotent, and never returns `ESP_ERR_INVALID_STATE`. -/
theorem c10_deinit_uninitialized_is_ok :
    (esp_bsp_sdl_deinit ⟨none⟩).1 = ESP_OK ∧
    (esp_bsp_sdl_deinit ⟨none⟩).2.s_current_board = none ∧
    (esp_bsp_sdl_deinit (esp_bsp_sdl_deinit ⟨none⟩).2).1 = ESP_OK ∧
    (esp_bsp_sdl_deinit ⟨none⟩).1 ≠ ESP_ERR_INVALID_STATE := by
  refine ⟨rfl, rfl, rfl, ?_⟩
  decide

/-! ## C2 -/

/-- C2 counterexample: the claim includes `deinit` among the operations
that yield `InvalidState` before any successful `init`, but
`esp_bsp_sdl_deinit` on the Uninitialized dispatcher returns `ESP_OK`. -/
theorem c2_counterexample :
    (esp_bsp_sdl_deinit ⟨none⟩).1 = ESP_OK ∧ ESP_OK ≠ ESP_ERR_INVALID_STATE :=
  ⟨rfl, by decide⟩

/-- C2 (amended): while the dispatcher holds no board (Uninitialized),
`backlight_on`, `backlight_off`, `display_on_off`, `touch_init` and
`touch_read` (given a valid output slot) all yield
`ESP_ERR_INVALID_STATE`; `deinit` instead returns `ESP_OK`. -/
theorem c2_uninitialized_ops_invalid_state (s : DispatcherState)
    (hs : s.s_current_board = none) (ti : TouchInfo) :
    esp_bsp_sdl_backlight_on s = ESP_ERR_INVALID_STATE ∧
    esp_bsp_sdl_backlight_off s = ESP_ERR_INVALID_STATE ∧
    (∀ e, esp_bsp_sdl_display_on_off s e = ESP_ERR_INVALID_STATE) ∧
    esp_bsp_sdl_touch_init s = ESP_ERR_INVALID_STATE ∧
    (esp_bsp_sdl_touch_read s (some ti)).1 = ESP_ERR_INVALID_STATE ∧
    (esp_bsp_sdl_deinit s).1 = ESP_OK := by
  simp [esp_bsp_sdl_backlight_on, esp_bsp_sdl_backlight_off,
    esp_bsp_sdl_display_on_off, esp_bsp_sdl_touch_init,
    esp_bsp_sdl_touch_read, esp_bsp_sdl_deinit, hs]

/-- C2 witness: the amended statement evaluated on the start state. -/
theorem c2_witness :
    esp_bsp_sdl_backlight_on ⟨none⟩ = ESP_ERR_INVALID_STATE ∧
    esp_bsp_sdl_backlight_off ⟨none⟩ = ESP_ERR_INVALID_STATE ∧
    (∀ e, esp_bsp_sdl_display_on_off ⟨none⟩ e = ESP_ERR_INVALID_STATE) ∧
    esp_bsp_sdl_touch_init ⟨none⟩ = ESP_ERR_INVALID_STATE ∧
    (esp_bsp_sdl_touch_read ⟨none⟩ (some tiPrev)).1 = ESP_ERR_INVALID_STATE ∧
    (esp_bsp_sdl_deinit ⟨none⟩).1 = ESP_OK :=
  c2_uninitialized_ops_invalid_state ⟨none⟩ rfl tiPrev

/-! ## C1 -/

/-- One concrete run of `esp_bsp_sdl_init` in which the selected board
implementation (M5 Atom S3) fails its own `init` (the backlight PWM
bring-up returns `ESP_FAIL`). -/
def c1_failed_init_run : DispatchInitResult :=
  esp_bsp_sdl_init kAtom envBrightnessFail st0 (some cfg0) (some none) (some none)

/-- C1 counterexample: after an `esp_bsp_sdl_init` call whose board `init`
fails, the dispatcher still stores the board (`s_current_board` is not
NULL) and a subsequent operation does not behave as in the Uninitialized
state (`backlight_on` forwards to the board and returns `ESP_OK` instead
of `ESP_ERR_INVALID_STATE`). -/
theorem c1_counterexample :
    c1_failed_init_run.ret = ESP_FAIL ∧
    c1_failed_init_run.state.s_current_board.isSome = true ∧
    esp_bsp_sdl_backlight_on c1_failed_init_run.state = ESP_OK ∧
    ESP_OK ≠ ESP_ERR_INVALID_STATE := by
  refine ⟨by decide, by decide, by decide, by decide⟩

/-- C1 (amended): `esp_bsp_sdl_init` assigns the selected board to
`s_current_board` before calling its `init`; when that `init` returns an
error the error is passed to the caller but the board stays stored, and
subsequent operations forward to it rather than behaving as in the
Uninitialized state.  The dispatcher remains Uninitialized only when no
board marker is configured. -/
theorem c1_failed_init_keeps_board_stored (k : SdkConfig) (env : BspEnv)
    (st : BoardStatics) (config : Option DisplayConfig)
    (ph pioh : Option Handle) (b : BoardInterface)
    (hb : detect_board k env st = some b)
    (_hfail : (b.init config ph pioh).1 ≠ ESP_OK) :
    (esp_bsp_sdl_init k env st config ph pioh).ret = (b.init config ph pioh).1 ∧
    (esp_bsp_sdl_init k env st config ph pioh).state.s_current_board = some b ∧
    esp_bsp_sdl_backlight_on (esp_bsp_sdl_init k env st config ph pioh).state =
      b.backlight_on := by
  simp [esp_bsp_sdl_init, hb, esp_bsp_sdl_backlight_on]

/-- C1 witness: the amended statement evaluated on the failing Atom S3 run. -/
theorem c1_witness :
    (esp_bsp_sdl_init kAtom envBrightnessFail st0 (some cfg0) (some none)
        (some none)).ret =
      ((esp_bsp_sdl_m5_atom_s3_interface envBrightnessFail st0).init
        (some cfg0) (some none) (some none)).1 ∧
    (esp_bsp_sdl_init kAtom envBrightnessFail st0 (some cfg0) (some none)
        (some none)).state.s_current_board =
      some (esp_bsp_sdl_m5_atom_s3_interface envBrightnessFail st0) ∧
    esp_bsp_sdl_backlight_on
        (esp_bsp_sdl_init kAtom envBrightnessFail st0 (some cfg0) (some none)
          (some none)).state =
      (esp_bsp_sdl_m5_atom_s3_interface envBrightnessFail st0).backlight_on :=
  c1_failed_init_keeps_board_stored kAtom envBrightnessFail st0 (some cfg0)
    (some none) (some none) (esp_bsp_sdl_m5_atom_s3_interface envBrightnessFail st0)
    rfl (by decide)

/-! ## C3 -/

/-- C3: while the dispatcher is Active with one of the repository board
implementations, `esp_bsp_sdl_deinit` forwards to that implementation's
`deinit` (returning its result unchanged), that result is `ESP_OK` for
every repository board, and the dispatcher state unconditionally returns
to Uninitialized. -/
theorem c3_deinit_active_forwards_and_resets (s : DispatcherState)
    (b : BoardInterface) (hs : s.s_current_board = some b)
    (hb : isRepoBoard b) :
    (esp_bsp_sdl_deinit s).1 = b.deinit ∧
    b.deinit = ESP_OK ∧
    (esp_bsp_sdl_deinit s).2.s_current_board = none := by
  have hfwd : esp_bsp_sdl_deinit s = (b.deinit, ⟨none⟩) := by
    simp [esp_bsp_sdl_deinit, hs]
  refine ⟨by rw [hfwd], ?_, by rw [hfwd]⟩
  rcases hb with ⟨env, st, rfl⟩ | ⟨env, st, rfl⟩ | ⟨env, st, rfl⟩ |
    ⟨env, st, rfl⟩ | ⟨env, st, rfl⟩ | ⟨env, st, rfl⟩ <;> rfl

/-- C3 witness: `deinit` on a dispatcher holding the Atom S3 board. -/
theorem c3_witness :
    (esp_bsp_sdl_deinit ⟨some (esp_bsp_sdl_m5_atom_s3_interface envOk st0)⟩).1 =
      (esp_bsp_sdl_m5_atom_s3_interface envOk st0).deinit ∧
    (esp_bsp_sdl_m5_atom_s3_interface envOk st0).deinit = ESP_OK ∧
    (esp_bsp_sdl_deinit
        ⟨some (esp_bsp_sdl_m5_atom_s3_interface envOk st0)⟩).2.s_current_board =
      none :=
  c3_deinit_active_forwards_and_resets
    ⟨some (esp_bsp_sdl_m5_atom_s3_interface envOk st0)⟩
    (esp_bsp_sdl_m5_atom_s3_interface envOk st0) rfl
    (Or.inl ⟨envOk, st0, rfl⟩)

/-! ## C4 -/

/-- A successful CoreS3 board `init` run (which never touches the touch
handle, so touch is still uninitialized afterwards). -/
def c4_core_s3_post_init : InitResult :=
  CoreS3.esp_bsp_sdl_board_init envOk st0 (some cfg0) (some none) (some none)

/-- C4 counterexample: on the touch-capable M5Stack CoreS3, after a
successful `init` and before any `touch_init`, `touch_read` returns
`ESP_ERR_INVALID_ARG` — not the claimed `ESP_ERR_INVALID_STATE`. -/
theorem c4_counterexample :
    c4_core_s3_post_init.ret = ESP_OK ∧
    c4_core_s3_post_init.st.s_touch_handle = none ∧
    CoreS3.esp_bsp_sdl_board_touch_read envOk c4_core_s3_post_init.st
        (some tiPrev) = (ESP_ERR_INVALID_ARG, some tiPrev) ∧
    ESP_ERR_INVALID_ARG ≠ ESP_ERR_INVALID_STATE := by
  refine ⟨by decide, by decide, by decide, by decide⟩

/-- C4 (amended): with touch compiled in and the touch handle still NULL
(the state every `init` leaves behind, since no board `init` initializes
touch), `touch_read` before `touch_init` yields `ESP_ERR_INVALID_STATE`
only on the M5Stack Tab5 and the ESP32-P4 Function EV board; the M5Stack
CoreS3 and the ESP32-S3-LCD-EV-Board yield `ESP_ERR_INVALID_ARG` from
their combined NULL check, and the ESP-Box-3 implementation returns
`ESP_OK` with an empty sample without consulting any touch state. -/
theorem c4_touch_read_before_touch_init (env : BspEnv) (st : BoardStatics)
    (ti : TouchInfo) (hcaps : env.BSP_CAPS_TOUCH = true)
    (hen : env.CONFIG_SDL_BSP_TOUCH_ENABLE = true)
    (hst : st.s_touch_handle = none) :
    m5stack_tab5_touch_read env st (some ti) =
      (ESP_ERR_INVALID_STATE, some ⟨false, 0, 0⟩) ∧
    esp32_p4_function_ev_touch_read env st (some ti) =
      (ESP_ERR_INVALID_STATE, some ⟨false, 0, 0⟩) ∧
    CoreS3.esp_bsp_sdl_board_touch_read env st (some ti) =
      (ESP_ERR_INVALID_ARG, some ti) ∧
    esp32_s3_lcd_ev_board_touch_read env st (some ti) =
      (ESP_ERR_INVALID_ARG, some ti) ∧
    EspBox3Board.esp_bsp_sdl_board_touch_read env (some ti) =
      (ESP_OK, some ⟨false, 0, 0⟩) := by
  refine ⟨?_, ?_, ?_, ?_, ?_⟩ <;>
    simp [m5stack_tab5_touch_read, esp32_p4_function_ev_touch_read,
      CoreS3.esp_bsp_sdl_board_touch_read, esp32_s3_lcd_ev_board_touch_read,
      EspBox3Board.esp_bsp_sdl_board_touch_read, hcaps, hen, hst]

/-- C4 witness: the amended statement on the all-succeeding environment
with a never-initialized touch handle. -/
theorem c4_witness :
    m5stack_tab5_touch_read envOk st0 (some tiPrev) =
      (ESP_ERR_INVALID_STATE, some ⟨false, 0, 0⟩) ∧
    esp32_p4_function_ev_touch_read envOk st0 (some tiPrev) =
      (ESP_ERR_INVALID_STATE, some ⟨false, 0, 0⟩) ∧
    CoreS3.esp_bsp_sdl_board_touch_read envOk st0 (some tiPrev) =
      (ESP_ERR_INVALID_ARG, some tiPrev) ∧
    esp32_s3_lcd_ev_board_touch_read envOk st0 (some tiPrev) =
      (ESP_ERR_INVALID_ARG, some tiPrev) ∧
    EspBox3Board.esp_bsp_sdl_board_touch_read envOk (some tiPrev) =
      (ESP_OK, some ⟨false, 0, 0⟩) :=
  c4_touch_read_before_touch_init envOk st0 tiPrev rfl rfl rfl

/-! ## C5 -/

/-- Like `envOk` but both display-creation calls fail, so every board
`init` fails after its argument check. -/
def envDisplayFail : BspEnv :=
  { envOk with bsp_display_new := (ESP_FAIL, none, none)
               bsp_display_new_with_handles := (ESP_FAIL, none, none) }

/-- A failing Atom S3 `init` run whose caller passed output cells holding
a previous (non-NULL) handle value. -/
def c5_failed_run : InitResult :=
  m5_atom_s3_init envBrightnessFail st0 (some cfg0) (some (some 7)) (some (some 7))

/-- C5 counterexample: when the board `init` fails, the caller-visible
output handle cells are NOT set to NULL — they still hold the value the
caller passed in (`some 7`), because the failure paths return without
writing the out parameters. -/
theorem c5_counterexample :
    c5_failed_run.ret = ESP_FAIL ∧
    c5_failed_run.panel = some (some 7) ∧
    c5_failed_run.panel ≠ some (none : Handle) ∧
    c5_failed_run.panel_io = some (some 7) ∧
    c5_failed_run.panel_io ≠ some (none : Handle) := by
  refine ⟨by decide, by decide, by decide, by decide, by decide⟩

/-- C5 (amended): when a board `init` returns an error, it returns without
writing the caller's output handle slots at all: the slots keep exactly
the contents the caller passed in (so no new handle is published, but
they are not cleared to NULL either) — for every board implementation. -/
theorem c5_failed_init_leaves_outputs_unwritten (env : BspEnv)
    (st : BoardStatics) (config : Option DisplayConfig)
    (ph pioh : Option Handle) :
    ((m5_atom_s3_init env st config ph pioh).ret ≠ ESP_OK →
      (m5_atom_s3_init env st config ph pioh).panel = ph ∧
      (m5_atom_s3_init env st config ph pioh).panel_io = pioh) ∧
    ((esp_box_3_init env st config ph pioh).ret ≠ ESP_OK →
      (esp_box_3_init env st config ph pioh).panel = ph ∧
      (esp_box_3_init env st config ph pioh).panel_io = pioh) ∧
    ((CoreS3.esp_bsp_sdl_board_init env st config ph pioh).ret ≠ ESP_OK →
      (CoreS3.esp_bsp_sdl_board_init env st config ph pioh).panel = ph ∧
      (CoreS3.esp_bsp_sdl_board_init env st config ph pioh).panel_io = pioh) ∧
    ((esp32_p4_function_ev_init env st config ph pioh).ret ≠ ESP_OK →
      (esp32_p4_function_ev_init env st config ph pioh).panel = ph ∧
      (esp32_p4_function_ev_init env st config ph pioh).panel_io = pioh) ∧
    ((esp32_s3_lcd_ev_board_init env st config ph pioh).ret ≠ ESP_OK →
      (esp32_s3_lcd_ev_board_init env st config ph pioh).panel = ph ∧
      (esp32_s3_lcd_ev_board_init env st config ph pioh).panel_io = pioh) ∧
    ((m5stack_tab5_init env st config ph pioh).ret ≠ ESP_OK →
      (m5stack_tab5_init env st config ph pioh).panel = ph ∧
      (m5stack_tab5_init env st config ph pioh).panel_io = pioh) := by
  refine ⟨?_, ?_, ?_, ?_, ?_, ?_⟩ <;> intro h <;>
    [skip; skip; skip; skip; skip; skip] <;>
    first
    | (simp only [m5_atom_s3_init] at h ⊢; split_ifs at h ⊢ <;> simp_all)
    | (simp only [esp_box_3_init] at h ⊢; split_ifs at h ⊢ <;> simp_all)
    | (simp only [CoreS3.esp_bsp_sdl_board_init] at h ⊢;
        split_ifs at h ⊢ <;> simp_all)
    | (simp only [esp32_p4_function_ev_init] at h ⊢;
        split_ifs at h ⊢ <;> simp_all)
    | (simp only [esp32_s3_lcd_ev_board_init] at h ⊢;
        split_ifs at h ⊢ <;> simp_all)
    | (simp only [m5stack_tab5_init] at h ⊢; split_ifs at h ⊢ <;> simp_all)

/-- C5 witness: the amended statement on an environment where the display
bring-up fails, with output cells holding a previous non-NULL value. -/
theorem c5_witness :
    (m5_atom_s3_init envDisplayFail st0 (some cfg0) (some (some 7))
        (some (some 7))).panel = some (some 7) ∧
    (esp_box_3_init envDisplayFail st0 (some cfg0) (some (some 7))
        (some (some 7))).panel = some (some 7) ∧
    (CoreS3.esp_bsp_sdl_board_init envDisplayFail st0 (some cfg0)
        (some (some 7)) (some (some 7))).panel = some (some 7) ∧
    (esp32_p4_function_ev_init envDisplayFail st0 (some cfg0) (some (some 7))
        (some (some 7))).panel = some (some 7) ∧
    (esp32_s3_lcd_ev_board_init envDisplayFail st0 (some cfg0) (some (some 7))
        (some (some 7))).panel = some (some 7) ∧
    (m5stack_tab5_init envDisplayFail st0 (some cfg0) (some (some 7))
        (some (some 7))).panel = some (some 7) := by
  have T := c5_failed_init_leaves_outputs_unwritten envDisplayFail st0
    (some cfg0) (some (some 7)) (some (some 7))
  exact ⟨(T.1 (by decide)).1, (T.2.1 (by decide)).1, (T.2.2.1 (by decide)).1,
    (T.2.2.2.1 (by decide)).1, (T.2.2.2.2.1 (by decide)).1,
    (T.2.2.2.2.2 (by decide)).1⟩

/-! ## C6 -/

/-- Statics in which touch has been successfully initialized. -/
def stTouch : BoardStatics := { st0 with s_touch_handle := some 3 }

/-- C6: every touch sample produced by a successful `touch_read`
(result `ESP_OK`) with `pressed = false` carries `x = 0` and `y = 0`,
for each board implementation that can produce a sample, regardless of
the previous contents of the caller's sample cell. -/
theorem c6_unpressed_sample_is_zero (env : BspEnv) (st : BoardStatics)
    (ti out : TouchInfo) :
    (m5stack_tab5_touch_read env st (some ti) = (ESP_OK, some out) →
      out.pressed = false → out.x = 0 ∧ out.y = 0) ∧
    (esp32_p4_function_ev_touch_read env st (some ti) = (ESP_OK, some out) →
      out.pressed = false → out.x = 0 ∧ out.y = 0) ∧
    (CoreS3.esp_bsp_sdl_board_touch_read env st (some ti) = (ESP_OK, some out) →
      out.pressed = false → out.x = 0 ∧ out.y = 0) ∧
    (esp32_s3_lcd_ev_board_touch_read env st (some ti) = (ESP_OK, some out) →
      out.pressed = false → out.x = 0 ∧ out.y = 0) ∧
    (EspBox3Board.esp_bsp_sdl_board_touch_read env (some ti) = (ESP_OK, some out) →
      out.pressed = false → out.x = 0 ∧ out.y = 0) := by
  refine ⟨?_, ?_, ?_, ?_, ?_⟩ <;> intro H hp <;>
    (simp only [m5stack_tab5_touch_read, esp32_p4_function_ev_touch_read,
       CoreS3.esp_bsp_sdl_board_touch_read, esp32_s3_lcd_ev_board_touch_read,
       EspBox3Board.esp_bsp_sdl_board_touch_read, Option.map_some'] at H;
     split_ifs at H <;>
       simp only [Prod.mk.injEq, Option.some.injEq] at H <;>
       obtain ⟨h1, h2⟩ := H <;> (try subst h2) <;>
       simp_all [ESP_OK, ESP_ERR_NOT_SUPPORTED, ESP_ERR_INVALID_ARG,
         ESP_ERR_INVALID_STATE])

/-- C6 witness: a concrete successful unpressed read on the CoreS3 board
whose previous sample cell held a touch position. -/
theorem c6_witness :
    CoreS3.esp_bsp_sdl_board_touch_read envOk stTouch (some tiPrev) =
      (ESP_OK, some ⟨false, 0, 0⟩) ∧
    (⟨false, 0, 0⟩ : TouchInfo).x = 0 ∧ (⟨false, 0, 0⟩ : TouchInfo).y = 0 :=
  ⟨by decide,
    ((c6_unpressed_sample_is_zero envOk stTouch tiPrev ⟨false, 0, 0⟩).2.2.1
      (by decide) rfl).1,
    ((c6_unpressed_sample_is_zero envOk stTouch tiPrev ⟨false, 0, 0⟩).2.2.1
      (by decide) rfl).2⟩

/-! ## C7 -/

/-- C7: for every board implementation, under a deterministic driver
environment whose bring-up calls succeed, the sequence
`init` → `deinit` → `init` succeeds at every step and both `init` calls
produce the same capability descriptor (hence the same width, height and
pixel encoding). -/
theorem c7_init_deinit_init_roundtrip (env : BspEnv) (st : BoardStatics)
    (c0 : DisplayConfig) (p0 q0 : Handle) (henv : EnvBringupOk env) :
    ((m5_atom_s3_init env st (some c0) (some p0) (some q0)).ret = ESP_OK ∧
      (m5_atom_s3_deinit
        (m5_atom_s3_init env st (some c0) (some p0) (some q0)).st).1 = ESP_OK ∧
      (m5_atom_s3_init env
        (m5_atom_s3_deinit
          (m5_atom_s3_init env st (some c0) (some p0) (some q0)).st).2
        (some c0) (some p0) (some q0)).ret = ESP_OK ∧
      (m5_atom_s3_init env
        (m5_atom_s3_deinit
          (m5_atom_s3_init env st (some c0) (some p0) (some q0)).st).2
        (some c0) (some p0) (some q0)).config =
        (m5_atom_s3_init env st (some c0) (some p0) (some q0)).config) ∧
    ((esp_box_3_init env st (some c0) (some p0) (some q0)).ret = ESP_OK ∧
      (esp_box_3_deinit
        (esp_box_3_init env st (some c0) (some p0) (some q0)).st).1 = ESP_OK ∧
      (esp_box_3_init env
        (esp_box_3_deinit
          (esp_box_3_init env st (some c0) (some p0) (some q0)).st).2
        (some c0) (some p0) (some q0)).ret = ESP_OK ∧
      (esp_box_3_init env
        (esp_box_3_deinit
          (esp_box_3_init env st (some c0) (some p0) (some q0)).st).2
        (some c0) (some p0) (some q0)).config =
        (esp_box_3_init env st (some c0) (some p0) (some q0)).config) ∧
    ((CoreS3.esp_bsp_sdl_board_init env st (some c0) (some p0) (some q0)).ret =
        ESP_OK ∧
      (CoreS3.esp_bsp_sdl_board_deinit
        (CoreS3.esp_bsp_sdl_board_init env st (some c0) (some p0)
          (some q0)).st).1 = ESP_OK ∧
      (CoreS3.esp_bsp_sdl_board_init env
        (CoreS3.esp_bsp_sdl_board_deinit
          (CoreS3.esp_bsp_sdl_board_init env st (some c0) (some p0)
            (some q0)).st).2
        (some c0) (some p0) (some q0)).ret = ESP_OK ∧
      (CoreS3.esp_bsp_sdl_board_init env
        (CoreS3.esp_bsp_sdl_board_deinit
          (CoreS3.esp_bsp_sdl_board_init env st (some c0) (some p0)
            (some q0)).st).2
        (some c0) (some p0) (some q0)).config =
        (CoreS3.esp_bsp_sdl_board_init env st (some c0) (some p0)
          (some q0)).config) ∧
    ((esp32_p4_function_ev_init env st (some c0) (some p0) (some q0)).ret =
        ESP_OK ∧
      (esp32_p4_function_ev_deinit
        (esp32_p4_function_ev_init env st (some c0) (some p0)
          (some q0)).st).1 = ESP_OK ∧
      (esp32_p4_function_ev_init env
        (esp32_p4_function_ev_deinit
          (esp32_p4_function_ev_init env st (some c0) (some p0)
            (some q0)).st).2
        (some c0) (some p0) (some q0)).ret = ESP_OK ∧
      (esp32_p4_function_ev_init env
        (esp32_p4_function_ev_deinit
          (esp32_p4_function_ev_init env st (some c0) (some p0)
            (some q0)).st).2
        (some c0) (some p0) (some q0)).config =
        (esp32_p4_function_ev_init env st (some c0) (some p0)
          (some q0)).config) ∧
    ((esp32_s3_lcd_ev_board_init env st (some c0) (some p0) (some q0)).ret =
        ESP_OK ∧
      (esp32_s3_lcd_ev_board_deinit env
        (esp32_s3_lcd_ev_board_init env st (some c0) (some p0)
          (some q0)).st).1 = ESP_OK ∧
      (esp32_s3_lcd_ev_board_init env
        (esp32_s3_lcd_ev_board_deinit env
          (esp32_s3_lcd_ev_board_init env st (some c0) (some p0)
            (some q0)).st).2
        (some c0) (some p0) (some q0)).ret = ESP_OK ∧
      (esp32_s3_lcd_ev_board_init env
        (esp32_s3_lcd_ev_board_deinit env
          (esp32_s3_lcd_ev_board_init env st (some c0) (some p0)
            (some q0)).st).2
        (some c0) (some p0) (some q0)).config =
        (esp32_s3_lcd_ev_board_init env st (some c0) (some p0)
          (some q0)).config) ∧
    ((m5stack_tab5_init env st (some c0) (some p0) (some q0)).ret = ESP_OK ∧
      (m5stack_tab5_deinit env
        (m5stack_tab5_init env st (some c0) (some p0) (some q0)).st).1 =
        ESP_OK ∧
      (m5stack_tab5_init env
        (m5stack_tab5_deinit env
          (m5stack_tab5_init env st (some c0) (some p0) (some q0)).st).2
        (some c0) (some p0) (some q0)).ret = ESP_OK ∧
      (m5stack_tab5_init env
        (m5stack_tab5_deinit env
          (m5stack_tab5_init env st (some c0) (some p0) (some q0)).st).2
        (some c0) (some p0) (some q0)).config =
        (m5stack_tab5_init env st (some c0) (some p0) (some q0)).config) := by
  obtain ⟨h1, h2, h3, h4, h5, h6⟩ := henv
  simp [m5_atom_s3_init, m5_atom_s3_deinit, esp_box_3_init, esp_box_3_deinit,
    CoreS3.esp_bsp_sdl_board_init, CoreS3.esp_bsp_sdl_board_deinit,
    esp32_p4_function_ev_init, esp32_p4_function_ev_deinit,
    esp32_s3_lcd_ev_board_init, esp32_s3_lcd_ev_board_deinit,
    m5stack_tab5_init, m5stack_tab5_deinit, h1, h2, h3, h4, h5, h6]

/-- C7 witness: the round trip evaluated on the all-succeeding
environment for the Atom S3 and ESP-Box-3 implementations. -/
theorem c7_witness :
    (m5_atom_s3_init envOk st0 (some cfg0) (some none) (some none)).ret =
      ESP_OK ∧
    (m5_atom_s3_init envOk
      (m5_atom_s3_deinit
        (m5_atom_s3_init envOk st0 (some cfg0) (some none) (some none)).st).2
      (some cfg0) (some none) (some none)).config =
      (m5_atom_s3_init envOk st0 (some cfg0) (some none) (some none)).config ∧
    (esp_box_3_init envOk st0 (some cfg0) (some none) (some none)).ret =
      ESP_OK ∧
    (esp_box_3_init envOk
      (esp_box_3_deinit
        (esp_box_3_init envOk st0 (some cfg0) (some none) (some none)).st).2
      (some cfg0) (some none) (some none)).config =
      (esp_box_3_init envOk st0 (some cfg0) (some none) (some none)).config :=
  ⟨(c7_init_deinit_init_roundtrip envOk st0 cfg0 none none envOk_bringup).1.1,
   (c7_init_deinit_init_roundtrip envOk st0 cfg0 none none
     envOk_bringup).1.2.2.2,
   (c7_init_deinit_init_roundtrip envOk st0 cfg0 none none
     envOk_bringup).2.1.1,
   (c7_init_deinit_init_roundtrip envOk st0 cfg0 none none
     envOk_bringup).2.1.2.2.2⟩

/-! ## C8 -/

/-- C8: for every board implementation, the capability descriptor produced
by a successful `init` has `max_transfer_sz` equal to
width x height x bytes-per-pixel of its declared pixel encoding (2 for
RGB565, 3 for RGB888); in particular the ESP-Box-3 descriptor always
declares 320x240 RGB565 geometry with `max_transfer_sz = 153600`. -/
theorem c8_max_transfer_sz_derived (env : BspEnv) (st : BoardStatics)
    (c0 : DisplayConfig) (p0 q0 : Handle) (cfg : DisplayConfig) :
    ((m5_atom_s3_init env st (some c0) (some p0) (some q0)).ret = ESP_OK →
      (m5_atom_s3_init env st (some c0) (some p0) (some q0)).config =
        some cfg →
      cfg.max_transfer_sz =
        cfg.width * cfg.height * spec_bytes_per_pixel cfg.pixel_format) ∧
    ((esp_box_3_init env st (some c0) (some p0) (some q0)).ret = ESP_OK →
      (esp_box_3_init env st (some c0) (some p0) (some q0)).config =
        some cfg →
      cfg.max_transfer_sz =
        cfg.width * cfg.height * spec_bytes_per_pixel cfg.pixel_format) ∧
    ((CoreS3.esp_bsp_sdl_board_init env st (some c0) (some p0)
        (some q0)).ret = ESP_OK →
      (CoreS3.esp_bsp_sdl_board_init env st (some c0) (some p0)
        (some q0)).config = some cfg →
      cfg.max_transfer_sz =
        cfg.width * cfg.height * spec_bytes_per_pixel cfg.pixel_format) ∧
    ((esp32_p4_function_ev_init env st (some c0) (some p0) (some q0)).ret =
        ESP_OK →
      (esp32_p4_function_ev_init env st (some c0) (some p0)
        (some q0)).config = some cfg →
      cfg.max_transfer_sz =
        cfg.width * cfg.height * spec_bytes_per_pixel cfg.pixel_format) ∧
    ((esp32_s3_lcd_ev_board_init env st (some c0) (some p0) (some q0)).ret =
        ESP_OK →
      (esp32_s3_lcd_ev_board_init env st (some c0) (some p0)
        (some q0)).config = some cfg →
      cfg.max_transfer_sz =
        cfg.width * cfg.height * spec_bytes_per_pixel cfg.pixel_format) ∧
    ((m5stack_tab5_init env st (some c0) (some p0) (some q0)).ret = ESP_OK →
      (m5stack_tab5_init env st (some c0) (some p0) (some q0)).config =
        some cfg →
      cfg.max_transfer_sz =
        cfg.width * cfg.height * spec_bytes_per_pixel cfg.pixel_format) ∧
    ((esp_box_3_init env st (some c0) (some p0) (some q0)).config =
        some cfg →
      cfg.width = 320 ∧ cfg.height = 240 ∧
      cfg.pixel_format = SDL_PIXELFORMAT_RGB565 ∧
      cfg.max_transfer_sz = 153600) := by
  refine ⟨?_, ?_, ?_, ?_, ?_, ?_, ?_⟩
  · intro hr hc
    simp only [m5_atom_s3_init] at hr hc
    split_ifs at hr hc <;> simp only [Option.some.injEq] at hc <;>
      (try subst hc) <;>
      simp_all [ESP_OK, ESP_ERR_INVALID_ARG, spec_bytes_per_pixel,
        SDL_PIXELFORMAT_RGB565, SDL_PIXELFORMAT_RGB888]
  · intro hr hc
    simp only [esp_box_3_init] at hr hc
    split_ifs at hr hc <;> simp only [Option.some.injEq] at hc <;>
      (try subst hc) <;>
      simp_all [ESP_OK, ESP_ERR_INVALID_ARG, spec_bytes_per_pixel,
        SDL_PIXELFORMAT_RGB565, SDL_PIXELFORMAT_RGB888]
  · intro hr hc
    simp only [CoreS3.esp_bsp_sdl_board_init] at hr hc
    split_ifs at hr hc <;> simp only [Option.some.injEq] at hc <;>
      (try subst hc) <;>
      simp_all [ESP_OK, ESP_ERR_INVALID_ARG, spec_bytes_per_pixel,
        SDL_PIXELFORMAT_RGB565, SDL_PIXELFORMAT_RGB888]
  · intro hr hc
    simp only [esp32_p4_function_ev_init] at hr hc
    split_ifs at hr hc
    all_goals simp only [Option.some.injEq] at hc
    all_goals (try subst hc)
    all_goals simp_all only [ESP_OK, ESP_ERR_INVALID_ARG,
      spec_bytes_per_pixel, SDL_PIXELFORMAT_RGB565, SDL_PIXELFORMAT_RGB888]
    all_goals first
      | exact absurd hr (by norm_num)
      | norm_num
  · intro hr hc
    simp only [esp32_s3_lcd_ev_board_init] at hr hc
    split_ifs at hr hc <;> simp only [Option.some.injEq] at hc <;>
      (try subst hc) <;>
      simp_all [ESP_OK, ESP_ERR_INVALID_ARG, spec_bytes_per_pixel,
        SDL_PIXELFORMAT_RGB565, SDL_PIXELFORMAT_RGB888]
  · intro hr hc
    simp only [m5stack_tab5_init] at hr hc
    split_ifs at hr hc
    all_goals simp only [Option.some.injEq] at hc
    all_goals (try subst hc)
    all_goals simp_all only [ESP_OK, ESP_ERR_INVALID_ARG,
      spec_bytes_per_pixel, SDL_PIXELFORMAT_RGB565, SDL_PIXELFORMAT_RGB888]
    all_goals first
      | exact absurd hr (by norm_num)
      | norm_num
  · intro hc
    simp only [esp_box_3_init] at hc
    split_ifs at hc <;> simp only [Option.some.injEq] at hc <;>
      (try subst hc) <;>
      simp_all [SDL_PIXELFORMAT_RGB565]

/-- C8 witness: the concrete 320x240 RGB565 scenario on the ESP-Box-3:
a successful `init` and the claimed `max_transfer_sz = 153600`. -/
theorem c8_witness :
    (esp_box_3_init envOk st0 (some cfg0) (some none) (some none)).ret =
      ESP_OK ∧
    (esp_box_3_init envOk st0 (some cfg0) (some none) (some none)).config =
      some ⟨320, 240, SDL_PIXELFORMAT_RGB565, 153600, false⟩ ∧
    ((⟨320, 240, SDL_PIXELFORMAT_RGB565, 153600, false⟩ :
        DisplayConfig).width = 320 ∧
      (⟨320, 240, SDL_PIXELFORMAT_RGB565, 153600, false⟩ :
        DisplayConfig).height = 240 ∧
      (⟨320, 240, SDL_PIXELFORMAT_RGB565, 153600, false⟩ :
        DisplayConfig).pixel_format = SDL_PIXELFORMAT_RGB565 ∧
      (⟨320, 240, SDL_PIXELFORMAT_RGB565, 153600, false⟩ :
        DisplayConfig).max_transfer_sz = 153600) :=
  ⟨by decide, by decide,
    (c8_max_transfer_sz_derived envOk st0 cfg0 none none
      ⟨320, 240, SDL_PIXELFORMAT_RGB565, 153600, false⟩).2.2.2.2.2.2
      (by decide)⟩

/-! ## C9 -/

/-- C9: `get_board_name` never fails (it is total): it returns the
sentinel "Unknown" (a non-empty string) whenever the dispatcher is
Uninitialized, returns the stored board's display name (a non-empty
string, for every repository board) when Active, and is a pure function
of the stored board, so repeated calls with no state change in between
return the same string. -/
theorem c9_get_board_name_total_nonempty (s : DispatcherState)
    (b : BoardInterface) (hs : s.s_current_board = some b)
    (hb : isRepoBoard b) :
    esp_bsp_sdl_get_board_name ⟨none⟩ = "Unknown" ∧
    "Unknown" ≠ "" ∧
    esp_bsp_sdl_get_board_name s = b.board_name ∧
    b.board_name ≠ "" ∧
    (∀ s1 s2 : DispatcherState, s1.s_current_board = s2.s_current_board →
      esp_bsp_sdl_get_board_name s1 = esp_bsp_sdl_get_board_name s2) := by
  refine ⟨rfl, by decide, ?_, ?_, ?_⟩
  · simp [esp_bsp_sdl_get_board_name, hs]
  · rcases hb with ⟨env, st, rfl⟩ | ⟨env, st, rfl⟩ | ⟨env, st, rfl⟩ |
      ⟨env, st, rfl⟩ | ⟨env, st, rfl⟩ | ⟨env, st, rfl⟩ <;>
      simp [esp_bsp_sdl_m5_atom_s3_interface, esp_bsp_sdl_esp_box_3_interface,
        esp_bsp_sdl_m5stack_core_s3_interface,
        esp_bsp_sdl_esp32_p4_function_ev_interface,
        esp_bsp_sdl_esp32_s3_lcd_ev_board_interface,
        esp_bsp_sdl_m5stack_tab5_interface]
  · intro s1 s2 h12
    cases h : s2.s_current_board <;>
      simp [esp_bsp_sdl_get_board_name, h12, h]

/-- C9 witness: the board-name properties on a dispatcher holding the
Atom S3 board. -/
theorem c9_witness :
    esp_bsp_sdl_get_board_name ⟨none⟩ = "Unknown" ∧
    esp_bsp_sdl_get_board_name
        ⟨some (esp_bsp_sdl_m5_atom_s3_interface envOk st0)⟩ =
      (esp_bsp_sdl_m5_atom_s3_interface envOk st0).board_name ∧
    (esp_bsp_sdl_m5_atom_s3_interface envOk st0).board_name ≠ "" :=
  ⟨(c9_get_board_name_total_nonempty
      ⟨some (esp_bsp_sdl_m5_atom_s3_interface envOk st0)⟩
      (esp_bsp_sdl_m5_atom_s3_interface envOk st0) rfl
      (Or.inl ⟨envOk, st0, rfl⟩)).1,
   (c9_get_board_name_total_nonempty
      ⟨some (esp_bsp_sdl_m5_atom_s3_interface envOk st0)⟩
      (esp_bsp_sdl_m5_atom_s3_interface envOk st0) rfl
      (Or.inl ⟨envOk, st0, rfl⟩)).2.2.1,
   (c9_get_board_name_total_nonempty
      ⟨some (esp_bsp_sdl_m5_atom_s3_interface envOk st0)⟩
      (esp_bsp_sdl_m5_atom_s3_interface envOk st0) rfl
      (Or.inl ⟨envOk, st0, rfl⟩)).2.2.2.1⟩
